import Mathlib

/-!
Verification development for the `mcp_client_rust` MCP client.

Shallow embedding of:
- the JSON-RPC message envelope and its custom serialization /
  field-presence-based deserialization (`src/transport/mod.rs`,
  `MessageVisitor` and `impl Serialize for Message`);
- the stdio transport's background reader loop (`src/transport/stdio.rs`);
- the client correlation engine: the matching loop, the timeout/liveness
  poll branch, the response handling, `initialize`, `call_tool`
  post-processing, and `perform_shutdown` (`src/client/mod.rs`).

Machine integers (the `i64` request counter and error codes) are modelled
as `Int`; JSON values as an inductive `JsonValue`.
-/

namespace Mcp

/-- A JSON value, mirroring `serde_json::Value`. Objects are association
lists of fields in emission order; lookups take the first occurrence. -/
inductive JsonValue where
  | null : JsonValue
  | bool (b : Bool) : JsonValue
  | num (n : Int) : JsonValue
  | str (s : String) : JsonValue
  | arr (elems : List JsonValue) : JsonValue
  | obj (fields : List (String × JsonValue)) : JsonValue

/-- First-match field lookup in a JSON object's field list, mirroring
`serde_json::Map::get` on the object collected by `MessageVisitor`. -/
def lookupField : List (String × JsonValue) → String → Option JsonValue
  | [], _ => none
  | (k, v) :: rest, key => if k = key then some v else lookupField rest key

/-- Type `RequestId` from `protocol.rs` (module not in the provided sources).
Modelled from the spec: "a discriminated value, either a 64-bit integer or
a string"; serde-untagged, so a JSON number decodes to `num` and a JSON
string to `str`. -/
inductive RequestId where
  | num (n : Int) : RequestId
  | str (s : String) : RequestId
deriving DecidableEq

/-- Type `Request` from `protocol.rs`. Modelled from the spec: `{jsonrpc version
tag "2.0", method: string, params: optional JSON value, id: RequestId}`. -/
structure Request where
  jsonrpc : String
  method : String
  params : Option JsonValue
  id : RequestId

/-- The JSON-RPC error object carried in a `Response`'s `error` field.
Modelled from the spec: `{code: integer, message: string, data: optional
JSON value}`. -/
structure ResponseError where
  code : Int
  message : String
  data : Option JsonValue

/-- Type `Response` from `protocol.rs`. Modelled from the spec: `{jsonrpc, id:
RequestId, result: optional JSON value, error: optional ResponseError}`. -/
structure Response where
  jsonrpc : String
  id : RequestId
  result : Option JsonValue
  error : Option ResponseError

/-- Type `Notification` from `protocol.rs`. Modelled from the spec: `{jsonrpc,
method: string, params: optional JSON value}`; no id. -/
structure Notification where
  jsonrpc : String
  method : String
  params : Option JsonValue

/-- Type `Message`, the tagged union over the three JSON-RPC shapes
(`src/transport/mod.rs`). -/
inductive Message where
  | request (req : Request) : Message
  | response (resp : Response) : Message
  | notification (notif : Notification) : Message

/-- Function `Message::message_type` from `src/transport/mod.rs`. -/
def Message.message_type : Message → String
  | .request _ => "request"
  | .response _ => "response"
  | .notification _ => "notification"

/-- Serde encoding of a `RequestId` (untagged: number or string). -/
def RequestId.toJson : RequestId → JsonValue
  | .num n => .num n
  | .str s => .str s

/-- Serde decoding of a `RequestId`: a JSON number becomes `num`, a JSON
string becomes `str`, anything else is a decode error. Modelled from the
spec's round-trip requirement (numbers stay numbers, strings stay
strings). -/
def RequestId.fromJson : JsonValue → Except String RequestId
  | .num n => .ok (.num n)
  | .str s => .ok (.str s)
  | _ => .error "invalid request id"

/-- Serde encoding of a `ResponseError` object. -/
def ResponseError.toJson (e : ResponseError) : JsonValue :=
  .obj ([("code", .num e.code), ("message", .str e.message)]
    ++ (match e.data with
        | some d => [("data", d)]
        | none => []))

/-- Serde decoding of a `ResponseError`: requires integer `code` and string
`message`; `data` is optional; unknown fields are ignored. -/
def ResponseError.fromJson : JsonValue → Except String ResponseError
  | .obj fields =>
    match lookupField fields "code", lookupField fields "message" with
    | some (.num c), some (.str m) =>
      .ok ⟨c, m, lookupField fields "data"⟩
    | _, _ => .error "invalid error object"
  | _ => .error "invalid error object"

/-- Derived deserialization of `Request` (from `protocol.rs`, modelled from
the spec): requires `jsonrpc` string, `method` string, valid `id`;
`params` optional; unknown fields (such as the redundant `type`) are
ignored. -/
def Request.fromJson : JsonValue → Except String Request
  | .obj fields =>
    match lookupField fields "jsonrpc", lookupField fields "method" with
    | some (.str j), some (.str m) =>
      match lookupField fields "id" with
      | some idv =>
        match RequestId.fromJson idv with
        | .ok id => .ok ⟨j, m, lookupField fields "params", id⟩
        | .error e => .error e
      | none => .error "missing id"
    | _, _ => .error "invalid request"
  | _ => .error "invalid request"

/-- Derived deserialization of `Response` (from `protocol.rs`, modelled
from the spec): requires `jsonrpc` string and valid `id`; `result` and
`error` are optional; unknown fields are ignored. -/
def Response.fromJson : JsonValue → Except String Response
  | .obj fields =>
    match lookupField fields "jsonrpc" with
    | some (.str j) =>
      match lookupField fields "id" with
      | some idv =>
        match RequestId.fromJson idv with
        | .ok id =>
          match lookupField fields "error" with
          | some ev =>
            match ResponseError.fromJson ev with
            | .ok err => .ok ⟨j, id, lookupField fields "result", some err⟩
            | .error e => .error e
          | none => .ok ⟨j, id, lookupField fields "result", none⟩
        | .error e => .error e
      | none => .error "missing id"
    | _ => .error "invalid response"
  | _ => .error "invalid response"

/-- Derived deserialization of `Notification` (from `protocol.rs`, modelled
from the spec): requires `jsonrpc` string and `method` string; `params`
optional; unknown fields are ignored. -/
def Notification.fromJson : JsonValue → Except String Notification
  | .obj fields =>
    match lookupField fields "jsonrpc", lookupField fields "method" with
    | some (.str j), some (.str m) =>
      .ok ⟨j, m, lookupField fields "params"⟩
    | _, _ => .error "invalid notification"
  | _ => .error "invalid notification"

/-- Embeds `impl Serialize for Message` from `src/transport/mod.rs`: always emits
a redundant `type` field first, then the variant's own fields, with
optional fields omitted when `None`. -/
def Message.encode : Message → JsonValue
  | .request req =>
    .obj ([("type", .str "request"), ("jsonrpc", .str req.jsonrpc),
           ("method", .str req.method)]
      ++ (match req.params with
          | some p => [("params", p)]
          | none => [])
      ++ [("id", req.id.toJson)])
  | .response resp =>
    .obj ([("type", .str "response"), ("jsonrpc", .str resp.jsonrpc),
           ("id", resp.id.toJson)]
      ++ (match resp.result with
          | some r => [("result", r)]
          | none => [])
      ++ (match resp.error with
          | some e => [("error", e.toJson)]
          | none => []))
  | .notification notif =>
    .obj ([("type", .str "notification"), ("jsonrpc", .str notif.jsonrpc),
           ("method", .str notif.method)]
      ++ (match notif.params with
          | some p => [("params", p)]
          | none => []))

/-- Embeds `MessageVisitor::visit_map` from `src/transport/mod.rs`: the collected
object is dispatched on field presence — `id` with `method` ⇒ Request;
`id` with `result` or `error` ⇒ Response; `method` without `id` ⇒
Notification; anything else is a decode error. -/
def Message.decode : JsonValue → Except String Message
  | .obj fields =>
    match lookupField fields "id" with
    | some _ =>
      match lookupField fields "method" with
      | some _ => (Request.fromJson (.obj fields)).map Message.request
      | none =>
        match lookupField fields "result", lookupField fields "error" with
        | none, none =>
          .error "invalid message: id present without method or result/error"
        | _, _ => (Response.fromJson (.obj fields)).map Message.response
    | none =>
      match lookupField fields "method" with
      | some _ => (Notification.fromJson (.obj fields)).map Message.notification
      | none => .error "invalid message: missing id and method"
  | _ => .error "expected a map"

/-- Type `ErrorCode` from `error.rs` (module not in the provided sources).
Modelled from the spec's error taxonomy: an enumerated protocol error kind
derived from a numeric JSON-RPC error code. -/
inductive ErrorCode where
  | parseError
  | invalidRequest
  | methodNotFound
  | invalidParams
  | internalError
  | serverNotInitialized
  | unknownErrorCode
  | requestFailed
deriving DecidableEq

/-- Numeric value of each error kind (spec §3 taxonomy). -/
def ErrorCode.toCode : ErrorCode → Int
  | .parseError => -32700
  | .invalidRequest => -32600
  | .methodNotFound => -32601
  | .invalidParams => -32602
  | .internalError => -32603
  | .serverNotInitialized => -32002
  | .unknownErrorCode => -32001
  | .requestFailed => -32000

/-- Embeds `impl From<i64> for ErrorCode` from `error.rs`, modelled from the spec:
each enumerated numeric code maps to its kind, anything else to
`UnknownErrorCode`. -/
def ErrorCode.fromCode (c : Int) : ErrorCode :=
  if c = -32700 then .parseError
  else if c = -32600 then .invalidRequest
  else if c = -32601 then .methodNotFound
  else if c = -32602 then .invalidParams
  else if c = -32603 then .internalError
  else if c = -32002 then .serverNotInitialized
  else if c = -32001 then .unknownErrorCode
  else if c = -32000 then .requestFailed
  else .unknownErrorCode

/-- Type `Error` from `error.rs` (module not in the provided sources). Modelled
from the spec's taxonomy and the constructors used in `src/client/mod.rs`
and `src/transport/stdio.rs`: `Io`, `Serialization`, `Protocol
{code, message, data}`, and the catch-all `Other(String)` used for
timeouts and process exits. -/
inductive Error where
  | io (msg : String)
  | serialization (msg : String)
  | protocol (code : ErrorCode) (message : String) (data : Option JsonValue)
  | other (msg : String)

/-! Section: client correlation engine (`src/client/mod.rs`, `Client::request`). -/

/-- Handling of the matching `Response` inside `Client::request`
(lines 157–169 of `src/client/mod.rs`): an `error` field fails with
`Error::Protocol { code: error.code.into(), message, data }`; a missing
`result` fails with `InternalError "Response missing result"`; otherwise
the `result` value is returned. -/
def handleMatchingResponse (resp : Response) : Except Error JsonValue :=
  match resp.error with
  | some e => .error (.protocol (ErrorCode.fromCode e.code) e.message e.data)
  | none =>
    match resp.result with
    | some r => .ok r
    | none => .error (.protocol .internalError "Response missing result" none)

/-- Whether a message is a `Response` whose id matches the awaited id
(the guard `Message::Response(response) if response.id == id`). -/
def isMatchingResponse (id : RequestId) : Message → Bool
  | .response r => r.id = id
  | _ => false

/-- Branch 1 of the `tokio::select!` in `Client::request` run over a
finite, then-closed queue: each message is consumed from the MPSC receiver
in order; a `Response` with the awaited id resolves the call via
`handleMatchingResponse`; non-matching responses, notifications and stray
requests are only logged and the loop continues; exhaustion of the closed
channel yields the "Connection closed while waiting for response" error. -/
def waitLoop (id : RequestId) : List Message → Except Error JsonValue
  | [] =>
    .error (.protocol .internalError "Connection closed while waiting for response" none)
  | m :: rest =>
    match m with
    | .response r => if r.id = id then handleMatchingResponse r else waitLoop id rest
    | _ => waitLoop id rest

/-- Branch 1 run over a queue that is still open after the listed messages:
`some` outcome if the loop resolved (or the channel closed, which cannot
happen while the client holds the sender), `none` while it is still
suspended in `rx.recv()`. -/
def waitLoopOpen (id : RequestId) : List Message → Option (Except Error JsonValue)
  | [] => none
  | m :: rest =>
    match m with
    | .response r =>
      if r.id = id then some (handleMatchingResponse r) else waitLoopOpen id rest
    | _ => waitLoopOpen id rest

/-- Observable status of the child process. -/
inductive ProcStatus where
  | running
  | exited (status : Int)
deriving DecidableEq

/-- Outcome of one `child.try_wait()` call inside the liveness poll:
`Ok(None)`, `Ok(Some(exit_status))`, or `Err(e)`. -/
inductive TryWaitOutcome where
  | stillRunning
  | exited (status : Int)
  | failed (e : String)

/-- Branch 2 of the `tokio::select!` in `Client::request` (lines 194–215
of `src/client/mod.rs`): up to 100 iterations, each sleeping 300 ms then —
only when a subprocess is owned — polling `try_wait`; an exited subprocess
fails the request immediately with its exit status, a `try_wait` failure
fails it with the I/O message, and surviving all 100 iterations (30 s)
fails with the timeout error. `poll k` is the outcome of the k-th poll;
the result carries the number of 300 ms periods elapsed when the branch
completed. `statusStr` renders an `std::process::ExitStatus` for the
message.

`fuel` counts the remaining iterations; the source's loop `for _ in 1..=100`
corresponds to `fuel = 100`. -/
def pollLoopAux (poll : Option (Nat → TryWaitOutcome)) (method : String)
    (statusStr : Int → String) : Nat → Nat → Except Error JsonValue × Nat
  | 0, elapsed =>
    (.error (.other ("Request to '" ++ method ++ "' timed out after 30 seconds")),
     elapsed)
  | fuel + 1, elapsed =>
    match poll with
    | none => pollLoopAux poll method statusStr fuel (elapsed + 1)
    | some f =>
      match f (elapsed + 1) with
      | .stillRunning => pollLoopAux poll method statusStr fuel (elapsed + 1)
      | .exited s =>
        (.error (.other ("Process exited with status: " ++ statusStr s)),
         elapsed + 1)
      | .failed e =>
        (.error (.other ("Error checking process status: " ++ e)),
         elapsed + 1)

/-- Branch 2 in full: 100 iterations of 300 ms each. -/
def pollBranch (poll : Option (Nat → TryWaitOutcome)) (method : String)
    (statusStr : Int → String) : Except Error JsonValue × Nat :=
  pollLoopAux poll method statusStr 100 0

/-- The `tokio::select!` of `Client::request` over the two branches: while
branch 1 is suspended with no matching response ever delivered, branch 2's
outcome decides the call. -/
def requestRace (id : RequestId) (delivered : List Message)
    (poll : Option (Nat → TryWaitOutcome)) (method : String)
    (statusStr : Int → String) : Except Error JsonValue :=
  match waitLoopOpen id delivered with
  | some r => r
  | none => (pollBranch poll method statusStr).1

/-! Section: stdio transport reader (`src/transport/stdio.rs`). -/

/-- One event produced by `reader.read_line` in the background reader loop:
either a line of text (read successfully, trailing newline included) or an
I/O error. The end of the event list is EOF (`Ok(0)`). -/
inductive ReadEvent where
  | line (s : String) : ReadEvent
  | ioError (e : String) : ReadEvent

/-- Embeds `str::trim_end` on the line buffer. -/
def trimEnd (s : String) : String :=
  ((s.data.reverse.dropWhile Char.isWhitespace).reverse).asString

/-- The background reader loop of `StdioTransport::with_streams`
(lines 41–73 of `src/transport/stdio.rs`) as the list of items it
publishes to the broadcast channel: a line whose trimmed form is empty is
skipped; a non-empty line is parsed (`parse` stands for
`serde_json::from_str::<Message>`) and published as either the decoded
message or a `Serialization` error, and reading continues; an I/O error is
published as an `Io` error and the loop breaks; EOF publishes the terminal
`Other "EOF"` error and the loop breaks. -/
def readerRun (parse : String → Except String Message) :
    List ReadEvent → List (Except Error Message)
  | [] => [.error (.other "EOF")]
  | .line s :: rest =>
    if trimEnd s = "" then readerRun parse rest
    else
      (match parse (trimEnd s) with
       | .ok m => .ok m
       | .error e => .error (.serialization e)) :: readerRun parse rest
  | .ioError e :: _ => [.error (.io e)]

/-! Section: client forwarder task (`Client::new`, lines 62–84). -/

/-- The background forwarder task spawned by `Client::new`: it forwards
each `Ok` message from the transport stream into the client's unbounded
MPSC queue and `break`s on the first `Err` item, delivering nothing
further. -/
def forwarderRun : List (Except Error Message) → List Message
  | [] => []
  | .ok m :: rest => m :: forwarderRun rest
  | .error _ :: _ => []

/-! Section: `call_tool` post-processing (`Client::call_tool`, lines 280–318). -/

/-- Type `MessageContent` from `types.rs` (module not in the provided sources).
Modelled from the spec: content blocks of a tool result, textual or
otherwise; only `Text { text }` blocks contribute to the aggregated error
message. -/
inductive MessageContent where
  | text (text : String) : MessageContent
  | nonText (payload : JsonValue) : MessageContent

/-- Type `CallToolResult` from `types.rs` (module not in the provided sources).
Modelled from the spec: the decoded `tools/call` result, carrying content
blocks and the tool-level `isError` flag. -/
structure CallToolResult where
  content : List MessageContent
  is_error : Bool

/-- The textual content blocks of a tool result, as collected by the
`filter_map` in `Client::call_tool`. -/
def textualContents (content : List MessageContent) : List String :=
  content.filterMap fun
    | .text t => some t
    | .nonText _ => none

/-- Post-processing of the decoded `CallToolResult` in `Client::call_tool`
(lines 296–317 of `src/client/mod.rs`): `is_error = true` becomes an
`Error::Other` whose message joins all textual content blocks with
newlines; otherwise the result is returned unchanged. -/
def callToolPostprocess (name : String) (tool_result : CallToolResult) :
    Except Error CallToolResult :=
  if tool_result.is_error then
    .error (.other ("Tool '" ++ name ++ "' execution failed: "
      ++ String.intercalate "\n" (textualContents tool_result.content)))
  else
    .ok tool_result

/-! Section: `initialize` and the capabilities cache (`Client::initialize`,
`Client::capabilities`). -/

/-- Type `ServerCapabilities` from `types.rs` (module not in the provided
sources). Modelled from the spec: opaque negotiated metadata. -/
structure ServerCapabilities where
  raw : JsonValue

/-- Type `InitializeResult` from `types.rs` (module not in the provided
sources). Modelled from the spec: the typed result of `initialize`,
carrying the server's capabilities among other metadata. -/
structure InitializeResult where
  capabilities : ServerCapabilities
  rest : JsonValue

/-- The part of the client state relevant to `capabilities()`: the cached
`server_capabilities` cell, `None` until written by `initialize`. -/
structure ClientCaps where
  server_capabilities : Option ServerCapabilities

/-- Embeds `Client::capabilities` (lines 234–238): returns the cached value. -/
def capabilities (c : ClientCaps) : Option ServerCapabilities :=
  c.server_capabilities

/-- Embeds `Client::initialize` (lines 97–124 of `src/client/mod.rs`) as a
sequential state transformer over the capabilities cache. Its three
fallible steps are passed in as outcomes: `reqOutcome` is
`self.request("initialize", …)`; `parse` is
`serde_json::from_value::<InitializeResult>`; `notifyOutcome` is
`self.notify("notifications/initialized", None)`. The source stores
`server_capabilities` after a successful parse and *before* sending the
`initialized` notification. -/
def initializeRun (reqOutcome : Except Error JsonValue)
    (parse : JsonValue → Except Error InitializeResult)
    (notifyOutcome : Except Error Unit) (s : ClientCaps) :
    Except Error InitializeResult × ClientCaps :=
  match reqOutcome with
  | .error e => (.error e, s)
  | .ok v =>
    match parse v with
    | .error e => (.error e, s)
    | .ok init =>
      let s' : ClientCaps := ⟨some init.capabilities⟩
      match notifyOutcome with
      | .error e => (.error e, s')
      | .ok _ => (.ok init, s')

/-! Section: shutdown (`Client::perform_shutdown`, lines 245–266). -/

/-- Embeds `StdioTransport::close` (lines 116–119 of `src/transport/stdio.rs`):
no cleanup, always `Ok(())`. -/
def stdioClose : Except Error Unit := .ok ()

/-- Behaviour of the owned child process during one `perform_shutdown`
call: `alreadyExited` is what `try_wait` reports on entry; `naturalExit`
is whether (and with what status) the process exits on its own within the
first bounded wait window; `killExit` is the status after `start_kill`
(SIGKILL) followed by the second bounded wait. -/
structure ChildBehavior where
  alreadyExited : Option Int
  naturalExit : Option Int
  killExit : Int

/-- The subprocess part of `Client::perform_shutdown`: skip both waits if
the child has already exited; otherwise wait (bounded, 2 s) for natural
exit; if still running, kill and wait again (bounded, 2 s). Returns the
child's final status and the number of bounded wait windows used. -/
def shutdownChild (c : ChildBehavior) : ProcStatus × Nat :=
  match c.alreadyExited with
  | some code => (.exited code, 0)
  | none =>
    match c.naturalExit with
    | some code => (.exited code, 1)
    | none => (.exited c.killExit, 2)

/-- The child's status on entry, as `try_wait` would report it. -/
def ChildBehavior.entryStatus (c : ChildBehavior) : ProcStatus :=
  match c.alreadyExited with
  | some code => .exited code
  | none => .running

/-- Embeds `Client::perform_shutdown`: closes the transport (an error there
returns early via `?`, leaving the child untouched), then tears down the
owned subprocess if any; always succeeds over a stdio transport. Returns
the call's result, the child's final status (when one is owned), and the
number of bounded wait windows used. -/
def performShutdown (child : Option ChildBehavior) :
    Except Error Unit × Option ProcStatus × Nat :=
  match stdioClose with
  | .error e => (.error e, child.map ChildBehavior.entryStatus, 0)
  | .ok _ =>
    match child with
    | none => (.ok (), none, 0)
    | some c => (.ok (), some (shutdownChild c).1, (shutdownChild c).2)

/-- The child behaviour seen by a *second* `perform_shutdown` call, given
the child's status at the end of the first: an exited child reports its
status from `try_wait` immediately; `child.wait()` on an exited child also
returns at once, modelled as natural exit in the first window. -/
def behaviorAfter (st : ProcStatus) (killExit : Int) : ChildBehavior :=
  match st with
  | .exited code => ⟨some code, some code, killExit⟩
  | .running => ⟨none, none, killExit⟩

/-- Validity of a constructible `Message` as the round-trip claim states
it: a `Response` carries exactly one of `result`/`error`; requests and
notifications are unrestricted. -/
def validMessage : Message → Prop
  | .request _ => True
  | .notification _ => True
  | .response r =>
    (r.result.isSome ∧ r.error = none) ∨ (r.result = none ∧ r.error.isSome)

/-! Section: theorems. Helper lemmas come first, then one theorem per
claim, each with its witness when the theorem carries hypotheses. -/

/-- Skipping lemma for the correlation loop over a closed queue: messages
that are not a response with the awaited id are consumed without changing
the outcome. -/
theorem waitLoop_skip (id : RequestId) (pre rest : List Message)
    (hpre : ∀ m ∈ pre, isMatchingResponse id m = false) :
    waitLoop id (pre ++ rest) = waitLoop id rest := by
  induction pre with
  | nil => rfl
  | cons m pre ih =>
    have hm := hpre m (List.mem_cons_self m pre)
    have hrest : ∀ m' ∈ pre, isMatchingResponse id m' = false :=
      fun m' hm' => hpre m' (List.mem_cons_of_mem m hm')
    cases m with
    | response r =>
      simp only [isMatchingResponse, decide_eq_false_iff_not] at hm
      simp only [List.cons_append, waitLoop, if_neg hm]
      exact ih hrest
    | request req => simpa only [List.cons_append, waitLoop] using ih hrest
    | notification n => simpa only [List.cons_append, waitLoop] using ih hrest

/-- Skipping lemma for the correlation loop over a still-open queue. -/
theorem waitLoopOpen_skip (id : RequestId) (pre rest : List Message)
    (hpre : ∀ m ∈ pre, isMatchingResponse id m = false) :
    waitLoopOpen id (pre ++ rest) = waitLoopOpen id rest := by
  induction pre with
  | nil => rfl
  | cons m pre ih =>
    have hm := hpre m (List.mem_cons_self m pre)
    have hrest : ∀ m' ∈ pre, isMatchingResponse id m' = false :=
      fun m' hm' => hpre m' (List.mem_cons_of_mem m hm')
    cases m with
    | response r =>
      simp only [isMatchingResponse, decide_eq_false_iff_not] at hm
      simp only [List.cons_append, waitLoopOpen, if_neg hm]
      exact ih hrest
    | request req => simpa only [List.cons_append, waitLoopOpen] using ih hrest
    | notification n => simpa only [List.cons_append, waitLoopOpen] using ih hrest

/-- The liveness/timeout branch never runs past its 100 sleep periods. -/
theorem pollLoopAux_elapsed_le (poll : Option (Nat → TryWaitOutcome))
    (method : String) (statusStr : Int → String) (fuel elapsed : Nat) :
    (pollLoopAux poll method statusStr fuel elapsed).2 ≤ elapsed + fuel := by
  induction fuel generalizing elapsed with
  | zero => simp [pollLoopAux]
  | succ fuel ih =>
    cases poll with
    | none =>
      simp only [pollLoopAux]
      exact le_trans (ih (elapsed + 1)) (by omega)
    | some f =>
      simp only [pollLoopAux]
      cases f (elapsed + 1) with
      | stillRunning => exact le_trans (ih (elapsed + 1)) (by omega)
      | exited s => simp
      | failed e => simp

/-- The forwarder delivers exactly the messages before the first stream
error, whatever follows that error. -/
theorem forwarderRun_ok_then_err (items : List Message) (e : Error)
    (post : List (Except Error Message)) :
    forwarderRun (items.map .ok ++ .error e :: post) = items := by
  induction items with
  | nil => rfl
  | cons m items ih => simpa [forwarderRun] using ih

/-- C1: while one `request()` with assigned id `id` is waiting, the
correlation loop consumes every non-matching response, notification and
stray request from the queue without resolving the call (consumption is
destructive: the loop recurses past them, so no other consumer of the
`mpsc` receiver could see them); a queue holding only such messages never
resolves the call (it would end in the connection-closed error if the
channel closed); and a `Response` with the awaited id — even one arriving
after arbitrarily many skipped messages — resolves the call, with its
`result` value when it carries one. -/
theorem C1_request_correlation (id : RequestId) (pre post : List Message)
    (r : Response) (hpre : ∀ m ∈ pre, isMatchingResponse id m = false)
    (hid : r.id = id) :
    waitLoop id (pre ++ Message.response r :: post) = handleMatchingResponse r
    ∧ waitLoop id pre
        = .error (.protocol .internalError
            "Connection closed while waiting for response" none)
    ∧ (∀ v, r.error = none → r.result = some v →
        waitLoop id (pre ++ Message.response r :: post) = .ok v) := by
  have hskip := waitLoop_skip id pre (Message.response r :: post) hpre
  have hhead : waitLoop id (Message.response r :: post)
      = handleMatchingResponse r := by
    simp only [waitLoop, if_pos hid]
  refine ⟨hskip.trans hhead, ?_, ?_⟩
  · have h0 := waitLoop_skip id pre [] hpre
    simpa [waitLoop] using h0
  · intro v he hv
    rw [hskip.trans hhead]
    simp [handleMatchingResponse, he, hv]

/-- Witness for C1: id 2; the queue first delivers a notification, a
response with id 1 and a stray request, then the matching response with
result `"ok"`, then a late duplicate; the call resolves with `"ok"`, and
the prefix alone never resolves it. -/
theorem C1_request_correlation_witness :
    waitLoop (.num 2)
      ([.notification ⟨"2.0", "notifications/resources/list_changed", none⟩,
        .response ⟨"2.0", .num 1, some .null, none⟩,
        .request ⟨"2.0", "ping", none, .str "s1"⟩]
       ++ Message.response ⟨"2.0", .num 2, some (.str "ok"), none⟩
          :: [.response ⟨"2.0", .num 2, some (.bool true), none⟩])
      = .ok (.str "ok")
    ∧ waitLoop (.num 2)
        [.notification ⟨"2.0", "notifications/resources/list_changed", none⟩,
         .response ⟨"2.0", .num 1, some .null, none⟩,
         .request ⟨"2.0", "ping", none, .str "s1"⟩]
      = .error (.protocol .internalError
          "Connection closed while waiting for response" none) := by
  have h := C1_request_correlation (.num 2)
    [.notification ⟨"2.0", "notifications/resources/list_changed", none⟩,
     .response ⟨"2.0", .num 1, some .null, none⟩,
     .request ⟨"2.0", "ping", none, .str "s1"⟩]
    [.response ⟨"2.0", .num 2, some (.bool true), none⟩]
    ⟨"2.0", .num 2, some (.str "ok"), none⟩
    (by decide) rfl
  exact ⟨h.2.2 (.str "ok") rfl rfl, h.2.1⟩

/-- C2: `Message` decoding dispatches on field presence alone: an object
with `id` and `method` is decoded as a Request (never another variant);
with `id`, no `method`, and at least one of `result`/`error` as a
Response; with `method` and no `id` as a Notification; `id` with none of
`method`/`result`/`error`, and the absence of both `id` and `method`, are
decode errors. -/
theorem C2_decode_field_presence (fields : List (String × JsonValue)) :
    ((lookupField fields "id").isSome → (lookupField fields "method").isSome →
      Message.decode (.obj fields)
        = (Request.fromJson (.obj fields)).map Message.request)
    ∧ ((lookupField fields "id").isSome → lookupField fields "method" = none →
        ((lookupField fields "result").isSome
          ∨ (lookupField fields "error").isSome) →
        Message.decode (.obj fields)
          = (Response.fromJson (.obj fields)).map Message.response)
    ∧ (lookupField fields "id" = none → (lookupField fields "method").isSome →
        Message.decode (.obj fields)
          = (Notification.fromJson (.obj fields)).map Message.notification)
    ∧ ((lookupField fields "id").isSome → lookupField fields "method" = none →
        lookupField fields "result" = none → lookupField fields "error" = none →
        Message.decode (.obj fields)
          = .error "invalid message: id present without method or result/error")
    ∧ (lookupField fields "id" = none → lookupField fields "method" = none →
        Message.decode (.obj fields)
          = .error "invalid message: missing id and method") := by
  refine ⟨?_, ?_, ?_, ?_, ?_⟩
  · intro hid hm
    obtain ⟨iv, hiv⟩ := Option.isSome_iff_exists.mp hid
    obtain ⟨mv, hmv⟩ := Option.isSome_iff_exists.mp hm
    simp [Message.decode, hiv, hmv]
  · intro hid hm hre
    obtain ⟨iv, hiv⟩ := Option.isSome_iff_exists.mp hid
    rcases hre with hr | he
    · obtain ⟨rv, hrv⟩ := Option.isSome_iff_exists.mp hr
      simp [Message.decode, hiv, hm, hrv]
    · obtain ⟨ev, hev⟩ := Option.isSome_iff_exists.mp he
      cases hrv : lookupField fields "result" <;>
        simp [Message.decode, hiv, hm, hrv, hev]
  · intro hid hm
    obtain ⟨mv, hmv⟩ := Option.isSome_iff_exists.mp hm
    simp [Message.decode, hid, hmv]
  · intro hid hm hr he
    obtain ⟨iv, hiv⟩ := Option.isSome_iff_exists.mp hid
    simp [Message.decode, hiv, hm, hr, he]
  · intro hid hm
    simp [Message.decode, hid, hm]

/-- Witness for C2: one concrete object per branch of the field-presence
rule. -/
theorem C2_decode_field_presence_witness :
    (Message.decode (.obj [("id", .num 1), ("method", .str "ping"),
        ("jsonrpc", .str "2.0")])
      = (Request.fromJson (.obj [("id", .num 1), ("method", .str "ping"),
          ("jsonrpc", .str "2.0")])).map Message.request)
    ∧ (Message.decode (.obj [("jsonrpc", .str "2.0"), ("id", .num 1),
          ("result", .null)])
      = (Response.fromJson (.obj [("jsonrpc", .str "2.0"), ("id", .num 1),
          ("result", .null)])).map Message.response)
    ∧ (Message.decode (.obj [("jsonrpc", .str "2.0"),
          ("method", .str "notifications/initialized")])
      = (Notification.fromJson (.obj [("jsonrpc", .str "2.0"),
          ("method", .str "notifications/initialized")])).map
            Message.notification)
    ∧ (Message.decode (.obj [("id", .num 1)])
      = .error "invalid message: id present without method or result/error")
    ∧ (Message.decode (.obj [("jsonrpc", .str "2.0")])
      = .error "invalid message: missing id and method") :=
  ⟨(C2_decode_field_presence
      [("id", .num 1), ("method", .str "ping"), ("jsonrpc", .str "2.0")]).1
      rfl rfl,
   (C2_decode_field_presence
      [("jsonrpc", .str "2.0"), ("id", .num 1), ("result", .null)]).2.1
      rfl rfl (Or.inl rfl),
   (C2_decode_field_presence
      [("jsonrpc", .str "2.0"),
       ("method", .str "notifications/initialized")]).2.2.1 rfl rfl,
   (C2_decode_field_presence [("id", .num 1)]).2.2.2.1 rfl rfl rfl rfl,
   (C2_decode_field_presence [("jsonrpc", .str "2.0")]).2.2.2.2 rfl rfl⟩

/-- C3: for every valid `Message` (a Request, a Notification, or a
Response carrying exactly one of `result`/`error`, with either `RequestId`
variant), decoding the encoding yields the message back, the `RequestId`
variant and every optional field's presence preserved, despite the
redundant `type` field the encoder adds. -/
theorem C3_encode_decode_roundtrip (m : Message) (h : validMessage m) :
    Message.decode (Message.encode m) = .ok m := by
  cases m with
  | request req =>
    obtain ⟨j, mth, params, id⟩ := req
    cases params <;> cases id <;> rfl
  | notification n =>
    obtain ⟨j, mth, params⟩ := n
    cases params <;> rfl
  | response r =>
    obtain ⟨j, id, result, error⟩ := r
    rcases h with ⟨hr, he⟩ | ⟨hr, he⟩
    · simp only at he
      subst he
      obtain ⟨v, rfl⟩ := Option.isSome_iff_exists.mp hr
      cases id <;> rfl
    · simp only at hr
      subst hr
      obtain ⟨e, rfl⟩ := Option.isSome_iff_exists.mp he
      obtain ⟨c, msg, data⟩ := e
      cases data <;> cases id <;> rfl

/-- Witness for C3: a Response with a string id, no result, and an error
object carrying data round-trips exactly. -/
theorem C3_encode_decode_roundtrip_witness :
    Message.decode (Message.encode (.response ⟨"2.0", .str "abc", none,
        some ⟨-32601, "method not found", some .null⟩⟩))
      = .ok (.response ⟨"2.0", .str "abc", none,
          some ⟨-32601, "method not found", some .null⟩⟩) :=
  C3_encode_decode_roundtrip
    (.response ⟨"2.0", .str "abc", none,
      some ⟨-32601, "method not found", some .null⟩⟩)
    (Or.inr ⟨rfl, rfl⟩)

/-- C4: a `request()` that never receives a matching response is decided
by the liveness/timeout branch, which always completes within the 100
sleep periods of 300 ms (the 30-second ceiling); when the owned subprocess
has already exited, the branch fails at the very first poll — one 300 ms
period in — with an error carrying the exit status; with no subprocess the
branch runs the full 100 periods and fails with the timeout error. -/
theorem C4_timeout_and_process_exit (id : RequestId) (delivered : List Message)
    (poll : Option (Nat → TryWaitOutcome)) (method : String)
    (statusStr : Int → String)
    (hnom : ∀ m ∈ delivered, isMatchingResponse id m = false) :
    requestRace id delivered poll method statusStr
        = (pollBranch poll method statusStr).1
    ∧ (pollBranch poll method statusStr).2 ≤ 100
    ∧ (∀ f s, poll = some f → f 1 = .exited s →
        pollBranch poll method statusStr
          = (.error (.other ("Process exited with status: " ++ statusStr s)), 1))
    ∧ (poll = none →
        pollBranch poll method statusStr
          = (.error (.other ("Request to '" ++ method
              ++ "' timed out after 30 seconds")), 100)) := by
  refine ⟨?_, ?_, ?_, ?_⟩
  · have hopen : waitLoopOpen id delivered = none := by
      have h0 := waitLoopOpen_skip id delivered [] hnom
      simpa [waitLoopOpen] using h0
    simp [requestRace, hopen]
  · simpa using pollLoopAux_elapsed_le poll method statusStr 100 0
  · intro f s hf h1
    subst hf
    simp [pollBranch, pollLoopAux, h1]
  · intro hf
    subst hf
    have haux : ∀ fuel elapsed, pollLoopAux none method statusStr fuel elapsed
        = (.error (.other ("Request to '" ++ method
            ++ "' timed out after 30 seconds")), elapsed + fuel) := by
      intro fuel
      induction fuel with
      | zero => intro elapsed; simp [pollLoopAux]
      | succ fuel ih =>
        intro elapsed
        simp only [pollLoopAux, ih]
        congr 1
        omega
    simpa using haux 100 0

/-- Witness for C4: with an empty queue and a subprocess that has exited
with status 137, the race fails at the first poll with the exit-status
error. -/
theorem C4_timeout_and_process_exit_witness :
    requestRace (.num 1) [] (some fun _ => .exited 137) "tools/list"
        (fun s => toString s)
      = (pollBranch (some fun _ => .exited 137) "tools/list"
          (fun s => toString s)).1
    ∧ pollBranch (some fun _ => .exited 137) "tools/list" (fun s => toString s)
      = (.error (.other ("Process exited with status: " ++ toString (137 : Int))),
         1) := by
  have h := C4_timeout_and_process_exit (.num 1) []
    (some fun _ => .exited 137) "tools/list" (fun s => toString s)
    (fun m hm => absurd hm (List.not_mem_nil m))
  exact ⟨h.1, h.2.2.1 _ 137 rfl rfl⟩

/-- C5 counterexample: a matching Response whose error code is the
non-enumerated -12345 produces a Protocol error whose kind is
`UnknownErrorCode`, whose numeric value is -32001 — not the response's
own numeric code, so the error does not carry that code. -/
theorem C5_counterexample_unknown_code :
    handleMatchingResponse ⟨"2.0", .num 1, none, some ⟨-12345, "boom", none⟩⟩
      = .error (.protocol .unknownErrorCode "boom" none)
    ∧ ErrorCode.unknownErrorCode.toCode = -32001
    ∧ (-32001 : Int) ≠ -12345 := by
  refine ⟨?_, rfl, by decide⟩
  rfl

/-- C5 (amended): for every matching Response, an `error` field fails the
call with a Protocol error carrying the error kind derived from the
numeric code by the taxonomy (the numeric value is preserved exactly for
every enumerated code, and collapses to `UnknownErrorCode` otherwise)
together with the message and optional data unchanged; a Response with
neither `result` nor `error` fails with the InternalError "Response
missing result"; otherwise the `result` value is returned. -/
theorem C5_response_outcome_mapping (resp : Response) :
    (∀ e, resp.error = some e →
      handleMatchingResponse resp
        = .error (.protocol (ErrorCode.fromCode e.code) e.message e.data)
      ∧ ((ErrorCode.fromCode e.code).toCode = e.code
          ∨ ErrorCode.fromCode e.code = .unknownErrorCode))
    ∧ (resp.error = none → resp.result = none →
      handleMatchingResponse resp
        = .error (.protocol .internalError "Response missing result" none))
    ∧ (∀ v, resp.error = none → resp.result = some v →
      handleMatchingResponse resp = .ok v) := by
  refine ⟨?_, ?_, ?_⟩
  · intro e he
    refine ⟨by simp [handleMatchingResponse, he], ?_⟩
    by_cases h1 : e.code = -32700
    · left; simp [ErrorCode.fromCode, h1, ErrorCode.toCode]
    · by_cases h2 : e.code = -32600
      · left; simp [ErrorCode.fromCode, h1, h2, ErrorCode.toCode]
      · by_cases h3 : e.code = -32601
        · left; simp [ErrorCode.fromCode, h1, h2, h3, ErrorCode.toCode]
        · by_cases h4 : e.code = -32602
          · left; simp [ErrorCode.fromCode, h1, h2, h3, h4, ErrorCode.toCode]
          · by_cases h5 : e.code = -32603
            · left
              simp [ErrorCode.fromCode, h1, h2, h3, h4, h5, ErrorCode.toCode]
            · by_cases h6 : e.code = -32002
              · left
                simp [ErrorCode.fromCode, h1, h2, h3, h4, h5, h6,
                  ErrorCode.toCode]
              · by_cases h7 : e.code = -32001
                · left
                  simp [ErrorCode.fromCode, h1, h2, h3, h4, h5, h6, h7,
                    ErrorCode.toCode]
                · by_cases h8 : e.code = -32000
                  · left
                    simp [ErrorCode.fromCode, h1, h2, h3, h4, h5, h6, h7, h8,
                      ErrorCode.toCode]
                  · right
                    simp [ErrorCode.fromCode, h1, h2, h3, h4, h5, h6, h7, h8]
  · intro he hr
    simp [handleMatchingResponse, he, hr]
  · intro v he hv
    simp [handleMatchingResponse, he, hv]

/-- Witness for C5 (amended): the enumerated code -32601 is carried
through as MethodNotFound with message and data intact; a Response with
neither field fails with the missing-result InternalError; a plain result
is returned. -/
theorem C5_response_outcome_mapping_witness :
    handleMatchingResponse ⟨"2.0", .num 1, none,
        some ⟨-32601, "no such method", some .null⟩⟩
      = .error (.protocol .methodNotFound "no such method" (some .null))
    ∧ handleMatchingResponse ⟨"2.0", .num 1, none, none⟩
      = .error (.protocol .internalError "Response missing result" none)
    ∧ handleMatchingResponse ⟨"2.0", .num 1, some (.str "v"), none⟩
      = .ok (.str "v") := by
  have h1 := ((C5_response_outcome_mapping
    ⟨"2.0", .num 1, none, some ⟨-32601, "no such method", some .null⟩⟩).1
    ⟨-32601, "no such method", some .null⟩ rfl).1
  rw [show ErrorCode.fromCode (-32601) = ErrorCode.methodNotFound from by decide]
    at h1
  have h2 := (C5_response_outcome_mapping ⟨"2.0", .num 1, none, none⟩).2.1
    rfl rfl
  have h3 := (C5_response_outcome_mapping
    ⟨"2.0", .num 1, some (.str "v"), none⟩).2.2 (.str "v") rfl rfl
  exact ⟨h1, h2, h3⟩

/-- C6: the stdio reader publishes one `Serialization` stream error for a
line that fails to decode and then continues with the next line (the
published stream provably goes on: the tail is the run over the remaining
events); a line that trims to empty is skipped, publishing nothing; EOF
publishes exactly the one terminal EOF error and nothing after it; an I/O
read error publishes exactly the one `Io` error and stops, whatever events
would have followed. -/
theorem C6_reader_stream_errors (parse : String → Except String Message)
    (rest : List ReadEvent) (s e msg : String) :
    (trimEnd s ≠ "" → parse (trimEnd s) = .error msg →
      readerRun parse (.line s :: rest)
        = .error (.serialization msg) :: readerRun parse rest)
    ∧ (trimEnd s ≠ "" → ∀ m, parse (trimEnd s) = .ok m →
      readerRun parse (.line s :: rest) = .ok m :: readerRun parse rest)
    ∧ (trimEnd s = "" → readerRun parse (.line s :: rest) = readerRun parse rest)
    ∧ readerRun parse [] = [.error (.other "EOF")]
    ∧ readerRun parse (.ioError e :: rest) = [.error (.io e)] := by
  refine ⟨?_, ?_, ?_, rfl, rfl⟩
  · intro hne hp
    simp [readerRun, hne, hp]
  · intro hne m hp
    simp [readerRun, hne, hp]
  · intro hemp
    simp [readerRun, hemp]

/-- Witness for C6: with a parser that rejects everything, a non-empty
line publishes one error item and the reader goes on; an empty line
publishes nothing; EOF and an I/O error each publish exactly one item. -/
theorem C6_reader_stream_errors_witness :
    readerRun (fun _ => Except.error "expected value") [.line "hello\n", .line "\n"]
      = .error (.serialization "expected value")
        :: readerRun (fun _ => Except.error "expected value") [.line "\n"]
    ∧ readerRun (fun _ => Except.error "expected value") [.line "\n"]
      = readerRun (fun _ => Except.error "expected value") []
    ∧ readerRun (fun _ => Except.error "expected value") []
      = [.error (.other "EOF")]
    ∧ readerRun (fun _ => Except.error "expected value")
        [.ioError "broken pipe", .line "late\n"]
      = [.error (.io "broken pipe")] := by
  refine ⟨?_, ?_, ?_, ?_⟩
  · exact (C6_reader_stream_errors (fun _ => Except.error "expected value")
      [.line "\n"] "hello\n" "x" "expected value").1 (by decide) rfl
  · exact (C6_reader_stream_errors (fun _ => Except.error "expected value")
      [] "\n" "x" "expected value").2.2.1 (by decide)
  · exact (C6_reader_stream_errors (fun _ => Except.error "expected value")
      [] "x" "x" "expected value").2.2.2.1
  · exact (C6_reader_stream_errors (fun _ => Except.error "expected value")
      [.line "late\n"] "x" "broken pipe" "expected value").2.2.2.2

/-- C7: the client's forwarder task stops at the first error item of the
transport stream: what it delivers to the internal queue is exactly the
messages before that error, whatever comes after — so a well-formed
matching Response arriving after the error is never delivered; on such a
queue the correlation loop never resolves (still suspended on the open
queue), the request's outcome is whatever the timeout/liveness branch
produces, and were the queue to close it would end in the
connection-closed error. -/
theorem C7_forwarder_stops_at_error (items : List Message) (e : Error)
    (post : List (Except Error Message)) (id : RequestId)
    (poll : Option (Nat → TryWaitOutcome)) (method : String)
    (statusStr : Int → String)
    (hnom : ∀ m ∈ items, isMatchingResponse id m = false) :
    forwarderRun (items.map .ok ++ .error e :: post) = items
    ∧ (∀ r : Response, r.id = id →
        Message.response r ∉ items →
        Message.response r ∉ forwarderRun (items.map .ok ++ .error e :: post))
    ∧ waitLoopOpen id (forwarderRun (items.map .ok ++ .error e :: post)) = none
    ∧ requestRace id (forwarderRun (items.map .ok ++ .error e :: post))
        poll method statusStr = (pollBranch poll method statusStr).1
    ∧ waitLoop id (forwarderRun (items.map .ok ++ .error e :: post))
        = .error (.protocol .internalError
            "Connection closed while waiting for response" none) := by
  have hpre := forwarderRun_ok_then_err items e post
  have hopen : waitLoopOpen id items = none := by
    have h0 := waitLoopOpen_skip id items [] hnom
    simpa [waitLoopOpen] using h0
  refine ⟨hpre, ?_, ?_, ?_, ?_⟩
  · intro r _ hnotin
    rw [hpre]; exact hnotin
  · rw [hpre]; exact hopen
  · rw [hpre]; simp [requestRace, hopen]
  · rw [hpre]
    have h0 := waitLoop_skip id items [] hnom
    simpa [waitLoop] using h0

/-- Witness for C7: after one notification, the stream fails on a
malformed line; the later well-formed Response with the awaited id 1 is
never delivered and the waiting call cannot resolve. -/
theorem C7_forwarder_stops_at_error_witness :
    forwarderRun ([Message.notification ⟨"2.0", "log", none⟩].map .ok
        ++ .error (.serialization "bad line")
          :: [.ok (.response ⟨"2.0", .num 1, some .null, none⟩)])
      = [Message.notification ⟨"2.0", "log", none⟩]
    ∧ Message.response ⟨"2.0", .num 1, some .null, none⟩
        ∉ forwarderRun ([Message.notification ⟨"2.0", "log", none⟩].map .ok
            ++ .error (.serialization "bad line")
              :: [.ok (.response ⟨"2.0", .num 1, some .null, none⟩)])
    ∧ waitLoopOpen (.num 1)
        (forwarderRun ([Message.notification ⟨"2.0", "log", none⟩].map .ok
          ++ .error (.serialization "bad line")
            :: [.ok (.response ⟨"2.0", .num 1, some .null, none⟩)])) = none := by
  have h := C7_forwarder_stops_at_error
    [Message.notification ⟨"2.0", "log", none⟩]
    (.serialization "bad line")
    [.ok (.response ⟨"2.0", .num 1, some .null, none⟩)]
    (.num 1) none "tools/list" (fun s => toString s)
    (by decide)
  exact ⟨h.1, h.2.1 ⟨"2.0", .num 1, some .null, none⟩ rfl (by simp), h.2.2.1⟩

/-- C8: `call_tool` post-processing never returns the result value when
`isError` is true — it fails with an error whose message is the fixed
prefix naming the tool followed by the newline-join of all textual content
blocks (so the message contains their aggregation); when `isError` is
false the decoded result is returned unchanged. -/
theorem C8_call_tool_error_surfacing (name : String) (r : CallToolResult) :
    (r.is_error = true →
      callToolPostprocess name r
        = .error (.other ("Tool '" ++ name ++ "' execution failed: "
            ++ String.intercalate "\n" (textualContents r.content)))
      ∧ ∀ res, callToolPostprocess name r ≠ .ok res)
    ∧ (r.is_error = false → callToolPostprocess name r = .ok r) := by
  constructor
  · intro herr
    constructor
    · simp [callToolPostprocess, herr]
    · intro res
      simp [callToolPostprocess, herr]
  · intro hok
    simp [callToolPostprocess, hok]

/-- Witness for C8: the failing `add-note` call with textual content
"Missing name or content" fails with the aggregated message; a clean
result passes through unchanged. -/
theorem C8_call_tool_error_surfacing_witness :
    callToolPostprocess "add-note" ⟨[.text "Missing name or content"], true⟩
      = .error (.other ("Tool '" ++ "add-note" ++ "' execution failed: "
          ++ String.intercalate "\n"
              (textualContents [.text "Missing name or content"])))
    ∧ (∀ res, callToolPostprocess "add-note"
        ⟨[.text "Missing name or content"], true⟩ ≠ .ok res)
    ∧ callToolPostprocess "add-note" ⟨[.nonText .null], false⟩
      = .ok ⟨[.nonText .null], false⟩ := by
  have h := C8_call_tool_error_surfacing "add-note"
    ⟨[.text "Missing name or content"], true⟩
  have h2 := C8_call_tool_error_surfacing "add-note" ⟨[.nonText .null], false⟩
  exact ⟨(h.1 rfl).1, (h.1 rfl).2, h2.2 rfl⟩

/-- C9 counterexample: when the initialize request and the result parse
succeed but the subsequent `initialized` notification fails, `initialize`
returns an error while the capabilities cache already holds `Some` — the
claim that every failing initialize leaves it `None` is false. -/
theorem C9_counterexample_notify_failure :
    (∃ e, (initializeRun (.ok .null)
        (fun _ => .ok ⟨⟨.null⟩, .null⟩) (.error (.io "broken pipe")) ⟨none⟩).1
      = .error e)
    ∧ capabilities (initializeRun (.ok .null)
        (fun _ => .ok ⟨⟨.null⟩, .null⟩) (.error (.io "broken pipe")) ⟨none⟩).2
      = some ⟨.null⟩ :=
  ⟨⟨.io "broken pipe", rfl⟩, rfl⟩

/-- C9 (amended): starting from an uninitialized client (`capabilities()`
is `None`), a failing initialize request or a result-parse failure leaves
the cache `None`; as soon as the parse succeeds the server capabilities
are cached — before the `initialized` notification is sent, so they are
`Some` afterwards even when that notification fails — and on full success
`initialize` returns the parsed result with the capabilities cached. -/
theorem C9_capabilities_cache (req : Except Error JsonValue)
    (parse : JsonValue → Except Error InitializeResult)
    (notif : Except Error Unit) (s0 : ClientCaps)
    (h0 : s0.server_capabilities = none) :
    (∀ e, req = .error e →
      initializeRun req parse notif s0 = (.error e, s0)
      ∧ capabilities (initializeRun req parse notif s0).2 = none)
    ∧ (∀ v e, req = .ok v → parse v = .error e →
      initializeRun req parse notif s0 = (.error e, s0)
      ∧ capabilities (initializeRun req parse notif s0).2 = none)
    ∧ (∀ v init, req = .ok v → parse v = .ok init →
      capabilities (initializeRun req parse notif s0).2 = some init.capabilities
      ∧ (notif = .ok () →
          initializeRun req parse notif s0
            = (.ok init, ⟨some init.capabilities⟩))) := by
  refine ⟨?_, ?_, ?_⟩
  · intro e he
    subst he
    exact ⟨rfl, by simp [initializeRun, capabilities, h0]⟩
  · intro v e hv hp
    subst hv
    constructor
    · simp [initializeRun, hp]
    · simp [initializeRun, hp, capabilities, h0]
  · intro v init hv hp
    subst hv
    constructor
    · cases notif with
      | error e => simp [initializeRun, hp, capabilities]
      | ok u => simp [initializeRun, hp, capabilities]
    · intro hn
      subst hn
      simp [initializeRun, hp]

/-- Witness for C9 (amended): a timed-out request leaves the cache `None`;
a successful request, parse and notification cache the capabilities and
return the result. -/
theorem C9_capabilities_cache_witness :
    initializeRun (.error (.other "Request to 'initialize' timed out after 30 seconds"))
        (fun _ => .ok ⟨⟨.null⟩, .null⟩) (.ok ()) ⟨none⟩
      = (.error (.other "Request to 'initialize' timed out after 30 seconds"), ⟨none⟩)
    ∧ capabilities (initializeRun
        (.error (.other "Request to 'initialize' timed out after 30 seconds"))
        (fun _ => .ok ⟨⟨.null⟩, .null⟩) (.ok ()) ⟨none⟩).2 = none
    ∧ initializeRun (.ok .null) (fun _ => .ok ⟨⟨.null⟩, .null⟩) (.ok ()) ⟨none⟩
      = (.ok ⟨⟨.null⟩, .null⟩, ⟨some ⟨.null⟩⟩) := by
  have h1 := (C9_capabilities_cache
    (.error (.other "Request to 'initialize' timed out after 30 seconds"))
    (fun _ => .ok ⟨⟨.null⟩, .null⟩) (.ok ()) ⟨none⟩ rfl).1
    (.other "Request to 'initialize' timed out after 30 seconds") rfl
  have h2 := ((C9_capabilities_cache (.ok .null)
    (fun _ => .ok ⟨⟨.null⟩, .null⟩) (.ok ()) ⟨none⟩ rfl).2.2
    .null ⟨⟨.null⟩, .null⟩ rfl rfl).2 rfl
  exact ⟨h1.1, h1.2, h2⟩

/-- C10: every `perform_shutdown` call succeeds and uses at most two
bounded wait windows; after a completed first call over an owned child the
child has exited, and a second call returns success with no waiting at
all, leaving the transport (whose `close` is a no-op) and the child's
status exactly as the first call left them. -/
theorem C10_shutdown_idempotent_bounded (c : Option ChildBehavior) :
    (performShutdown c).1 = .ok ()
    ∧ (performShutdown c).2.2 ≤ 2
    ∧ (∀ b, c = some b →
        (∃ code, (shutdownChild b).1 = .exited code)
        ∧ performShutdown (some (behaviorAfter (shutdownChild b).1 b.killExit))
            = (.ok (), some (shutdownChild b).1, 0)) := by
  refine ⟨?_, ?_, ?_⟩
  · cases c <;> rfl
  · cases c with
    | none => simp [performShutdown, stdioClose]
    | some b =>
      obtain ⟨ae, ne, ke⟩ := b
      cases ae <;> cases ne <;> simp [performShutdown, stdioClose, shutdownChild]
  · intro b hb
    subst hb
    obtain ⟨ae, ne, ke⟩ := b
    constructor
    · cases ae <;> cases ne <;> exact ⟨_, rfl⟩
    · cases ae <;> cases ne <;> rfl

/-- Witness for C10: a child that neither has exited nor exits naturally
is killed (status 137 in the model); the first call uses both wait
windows, and the second call succeeds instantly leaving the status
unchanged. -/
theorem C10_shutdown_idempotent_bounded_witness :
    (performShutdown (some ⟨none, none, 137⟩)).1 = .ok ()
    ∧ (performShutdown (some ⟨none, none, 137⟩)).2.2 ≤ 2
    ∧ (∃ code, (shutdownChild ⟨none, none, 137⟩).1 = .exited code)
    ∧ performShutdown (some (behaviorAfter (shutdownChild ⟨none, none, 137⟩).1
        137)) = (.ok (), some (shutdownChild ⟨none, none, 137⟩).1, 0) := by
  have h := C10_shutdown_idempotent_bounded (some ⟨none, none, 137⟩)
  exact ⟨h.1, h.2.1, (h.2.2 ⟨none, none, 137⟩ rfl).1, (h.2.2 ⟨none, none, 137⟩ rfl).2⟩

end Mcp
